import Mathlib

/-!
# talk.channel: connection lifecycle and close classification

A shallow embedding of `src/talk/talker.go`.  The websocket transport, the two
application callbacks, the logger and the lifecycle cancel function are
collaborators of `channel`; every call the code makes to one of them is
recorded, in program order, in the `trace` of the channel state.  What the
transport answers (the result of a read, the result of a write, the result of
dialing) is an input of the model.

The two callbacks are application code: while one runs it may call back into
the channel through `Send` and `Close`, and so may change `connectionOpenned`
before the loop reads the field again.  What a callback does on the channel is
an input of the model too (a list of `AppCall`).
-/

namespace Talk

/-- A Go byte slice. -/
abbrev Bytes := List UInt8

/-! ## Constants of the websocket package -/

/-- Modelled from the spec: the constant `websocket.TextMessage` of the imported
websocket package (its declaration is not under src/); the text data frame opcode. -/
def TextMessage : Int := 1

/-- Modelled from the spec: the constant `websocket.CloseMessage` of the imported
websocket package (its declaration is not under src/); the close control frame
opcode, 8. -/
def CloseMessage : Int := 8

/-- Modelled from the spec: the constant `websocket.CloseNormalClosure` of the
imported websocket package (its declaration is not under src/); close status
code 1000. -/
def CloseNormalClosure : Int := 1000

/-- Modelled from the spec: the constant `websocket.CloseGoingAway` of the
imported websocket package (its declaration is not under src/); close status
code 1001. -/
def CloseGoingAway : Int := 1001

/-- Modelled from the spec: the constant `websocket.CloseAbnormalClosure` of the
imported websocket package (its declaration is not under src/); close status
code 1006. -/
def CloseAbnormalClosure : Int := 1006

/-! ## Errors and transport answers -/

/-- The dynamic type of a non-nil Go `error` value, as far as `keepListenning`
tells errors apart: a `*websocket.CloseError` (with its `Code` and `Text`), a
value implementing `net.Error`, or anything else. -/
inductive GoError where
  | closeError (code : Int) (text : String)
  | netError (msg : String)
  | other (msg : String)
  deriving DecidableEq

/-- The type assertion `err.(*websocket.CloseError)`: the close error's code
when it succeeds. -/
def asCloseError : Option GoError → Option Int
  | some (GoError.closeError code _) => some code
  | _ => none

/-- The type assertion `err.(net.Error)`: whether it succeeds. -/
def isNetError : Option GoError → Bool
  | some (GoError.netError _) => true
  | _ => false

/-- What one call of `c.ws.ReadMessage()` returns: `msgType, message, err`. -/
structure ReadResult where
  msgType : Int
  message : Bytes
  err : Option GoError
  deriving DecidableEq

/-! ## Observable calls -/

/-- A call made by the channel code to one of its collaborators, or an
assignment to `connectionOpenned`. -/
inductive Event where
  /-- The call `c.ws.ReadMessage()` returned. -/
  | readMessage
  /-- The call `c.onMessage(bytes)`. -/
  | onMessage (bytes : Bytes)
  /-- The call `c.onCloseByPeer()`. -/
  | onCloseByPeer
  /-- The call `c.connectionCloser()`: the lifecycle cancel. -/
  | connectionCloser
  /-- The call `c.logger.Infof(format, ...)`. -/
  | logInfof (format : String)
  /-- The call `c.writingMitx.Lock()` acquired the mutex. -/
  | lock
  /-- The call `c.writingMitx.Unlock()`. -/
  | unlock
  /-- The call `c.ws.WriteMessage(messageType, data)`. -/
  | writeMessage (messageType : Int) (data : Bytes)
  /-- The call `c.ws.Close()`. -/
  | wsClose
  /-- The assignment `c.connectionOpenned = b`. -/
  | setConnectionOpenned (b : Bool)
  /-- The statement `go c.keepListenning()`. -/
  | goKeepListenning
  deriving DecidableEq

/-! ## The channel -/

/-- The mutable part of `channel`.  `connectionCtxDone` is whether
`connectionCtx` has been cancelled, `writingMitx` is whether the mutex is held,
`trace` is the log of observable calls made so far (oldest first). -/
structure channel where
  connectionOpenned : Bool
  connectionCtxDone : Bool
  writingMitx : Bool
  trace : List Event
  deriving DecidableEq

namespace channel

/-- Append one observable call to the log. -/
def emit (c : channel) (e : Event) : channel :=
  { c with trace := c.trace ++ [e] }

/-- Call `c.connectionCloser()`: the context becomes done. -/
def callConnectionCloser (c : channel) : channel :=
  { c with connectionCtxDone := true, trace := c.trace ++ [Event.connectionCloser] }

/-- Call `c.logger.Infof(format, ...)`. -/
def logInfof (c : channel) (format : String) : channel :=
  c.emit (Event.logInfof format)

/-- The call `c.writingMitx.Lock()`, at the point where it returns: the mutex is
held by the caller. -/
def mitxLock (c : channel) : channel :=
  { c with writingMitx := true, trace := c.trace ++ [Event.lock] }

/-- The call `c.writingMitx.Unlock()`. -/
def mitxUnlock (c : channel) : channel :=
  { c with writingMitx := false, trace := c.trace ++ [Event.unlock] }

/-- The call `c.ws.WriteMessage(messageType, data)`; `result` is the error the
transport returns for it. -/
def wsWriteMessage (c : channel) (messageType : Int) (data : Bytes)
    (result : Option GoError) : channel × Option GoError :=
  (c.emit (Event.writeMessage messageType data), result)

end channel

/-- The state `NewTalker` builds: nothing opened, nothing cancelled. -/
def NewTalker : channel :=
  { connectionOpenned := false, connectionCtxDone := false, writingMitx := false, trace := [] }

/-- The method `dial`: `marshalErr` is the result of `json.Marshal`, `dialErr`
the result of `websocket.DefaultDialer.Dial`. -/
def dial (marshalErr dialErr : Option String) : Option String :=
  match marshalErr with
  | some e => some ("fail on bulding the player spec header: " ++ e)
  | none =>
    match dialErr with
    | some e => some ("fail on dialing to ws server: " ++ e)
    | none => none

/-- The method `Connect`: on a dial error nothing else happens; otherwise a fresh
context is created, `connectionOpenned` is set and the inbound loop is
started.  The second component is the returned error. -/
def Connect (c : channel) (marshalErr dialErr : Option String) : channel × Option String :=
  match dial marshalErr dialErr with
  | some err => (c, some err)
  | none =>
    let c := { c with connectionCtxDone := false }
    let c := { c with connectionOpenned := true, trace := c.trace ++ [Event.setConnectionOpenned true] }
    let c := c.emit Event.goKeepListenning
    (c, none)

/-- The method `Send`: `writeResult` is the error the transport returns for the
write.  The deferred unlock runs after the write, whatever its result. -/
def Send (c : channel) (data : Bytes) (writeResult : Option GoError) : channel × Option GoError :=
  let c := c.mitxLock
  let (c, err) := c.wsWriteMessage TextMessage data writeResult
  let c := c.mitxUnlock
  (c, err)

/-- The bytes of the string literal "bye". -/
def bye : Bytes := [98, 121, 101]

/-- The method `Close`.  The result of the write is discarded by the code, so
the model takes none. -/
def Close (c : channel) : channel :=
  let c := { c with connectionOpenned := false, trace := c.trace ++ [Event.setConnectionOpenned false] }
  let (c, _) := c.wsWriteMessage CloseNormalClosure bye none
  let c := c.emit Event.wsClose
  c

/-- A call the application makes on the channel through the `Talker` interface
while the inbound loop is running: `Send(data)` (with the error the transport
returns for its write) or `Close()`.  `Connect` is not among them: it is the
call that starts the loop, made once per channel. -/
inductive AppCall where
  | send (data : Bytes) (writeResult : Option GoError)
  | close
  deriving DecidableEq

/-- Run a sequence of application calls on the channel, in order. -/
def runApp : channel → List AppCall → channel
  | c, [] => c
  | c, AppCall.send data writeResult :: calls => runApp (Send c data writeResult).1 calls
  | c, AppCall.close :: calls => runApp (Close c) calls

/-- The call `c.onMessage(bytes)`: the call is logged, then the callback runs;
`body` is what the callback does on the channel before it returns. -/
def channel.callOnMessage (c : channel) (bytes : Bytes) (body : List AppCall) : channel :=
  runApp (c.emit (Event.onMessage bytes)) body

/-- The call `c.onCloseByPeer()`: the call is logged, then the callback runs;
`body` is what the callback does on the channel before it returns. -/
def channel.callOnCloseByPeer (c : channel) (body : List AppCall) : channel :=
  runApp (c.emit Event.onCloseByPeer) body

/-- What happens around the inbound loop.  `deliver r body`: the transport
answers the pending `ReadMessage` call with `r`, and `body` is what the
application callback called in that iteration (if one is called) does on the
channel.  `app call`: another goroutine of the application makes `call` while
the loop is blocked in `ReadMessage`. -/
inductive EnvEvent where
  | deliver (r : ReadResult) (body : List AppCall)
  | app (call : AppCall)
  deriving DecidableEq

/-- The result of running the inbound loop against a finite environment. -/
structure Run where
  /-- The channel state when the run ends. -/
  chan : channel
  /-- Whether `keepListenning` returned; `false` when the environment is
  exhausted and the loop is still blocked in `ReadMessage`. -/
  returned : Bool
  /-- The part of the environment the loop never consumed. -/
  unread : List EnvEvent
  deriving DecidableEq

/-- The method `keepListenning`, run against the list of things the environment
does.  Every test of `c.connectionOpenned` reads the field in the state reached
at that line, so the guard after the `onCloseByPeer` call sees what the callback
left. -/
def keepListenning : channel → List EnvEvent → Run
  | c, [] => { chan := c, returned := false, unread := [] }
  | c, EnvEvent.app call :: env => keepListenning (runApp c [call]) env
  | c, EnvEvent.deliver r body :: env =>
    let c := c.emit Event.readMessage
    match asCloseError r.err with
    | some code =>
      let c :=
        if code = CloseGoingAway ∨ code = CloseAbnormalClosure then
          c.callOnCloseByPeer body
        else if code = CloseNormalClosure ∧ c.connectionOpenned = true then
          c.callOnCloseByPeer body
        else
          c.logInfof "Connection closed by the player (%d): %s"
      let c := if c.connectionOpenned then c.callConnectionCloser else c
      { chan := c, returned := true, unread := env }
    | none =>
      if isNetError r.err ∧ c.connectionOpenned = true then
        let c := c.callConnectionCloser
        let c := c.logInfof "unnexpected connection closed (%d): %s"
        { chan := c, returned := true, unread := env }
      else if r.err ≠ none then
        let c := c.callConnectionCloser
        { chan := c, returned := true, unread := env }
      else
        keepListenning (c.callOnMessage r.message body) env

/-! ## Reading the log -/

/-- The calls made between state `c` and a later state `d`. -/
def emitted (c d : channel) : List Event :=
  d.trace.drop c.trace.length

/-- Whether the event is a call of `onMessage`. -/
def Event.isOnMessage : Event → Bool
  | Event.onMessage _ => true
  | _ => false

/-- Whether the event is a call of `ws.WriteMessage`. -/
def Event.isWrite : Event → Bool
  | Event.writeMessage _ _ => true
  | _ => false

/-- The payloads passed to `onMessage`, in call order. -/
def onMessagePayloads : List Event → List Bytes
  | [] => []
  | Event.onMessage b :: es => b :: onMessagePayloads es
  | _ :: es => onMessagePayloads es

/-- Scan a log from a state where the mutex is held or not (`held`): `true` when
every `writeMessage` in it happens while the mutex is held. -/
def writesGuarded : Bool → List Event → Bool
  | _, [] => true
  | _, Event.lock :: es => writesGuarded true es
  | _, Event.unlock :: es => writesGuarded false es
  | held, Event.writeMessage _ _ :: es => held && writesGuarded held es
  | held, _ :: es => writesGuarded held es

/-- The log entries of a sequence of application calls. -/
def appEvents : List AppCall → List Event
  | [] => []
  | AppCall.send data _ :: calls =>
    Event.lock :: Event.writeMessage TextMessage data :: Event.unlock :: appEvents calls
  | AppCall.close :: calls =>
    Event.setConnectionOpenned false :: Event.writeMessage CloseNormalClosure bye ::
      Event.wsClose :: appEvents calls

/-- The calls made by successful iterations of the inbound loop: each reads one
message, passes its payload to `onMessage`, and the callback makes its own
calls on the channel. -/
def forwarded : List (ReadResult × List AppCall) → List Event
  | [] => []
  | m :: ms =>
    Event.readMessage :: Event.onMessage m.1.message :: (appEvents m.2 ++ forwarded ms)

/-- An open channel right after a successful `Connect` on a new talker. -/
def openChannel : channel := (Connect NewTalker none none).1

end Talk


/-! ## Basic facts about the log -/

namespace Talk

theorem emitted_of_trace_eq {c d : channel} {evs : List Event}
    (h : d.trace = c.trace ++ evs) : emitted c d = evs := by
  simp [emitted, h]

theorem emitted_self (c : channel) : emitted c c = [] := by
  simp [emitted]

theorem Close_trace (c : channel) :
    (Close c).trace = c.trace ++
      [Event.setConnectionOpenned false, Event.writeMessage CloseNormalClosure bye, Event.wsClose] := by
  simp [Close, channel.wsWriteMessage, channel.emit]

theorem Close_connectionOpenned (c : channel) : (Close c).connectionOpenned = false := by
  simp [Close, channel.wsWriteMessage, channel.emit]

theorem Close_connectionCtxDone (c : channel) :
    (Close c).connectionCtxDone = c.connectionCtxDone := by
  simp [Close, channel.wsWriteMessage, channel.emit]

theorem Send_trace (c : channel) (data : Bytes) (writeResult : Option GoError) :
    (Send c data writeResult).1.trace = c.trace ++
      [Event.lock, Event.writeMessage TextMessage data, Event.unlock] := by
  simp [Send, channel.mitxLock, channel.mitxUnlock, channel.wsWriteMessage, channel.emit]

/-- Application calls only append their own entries to the log. -/
theorem runApp_trace (calls : List AppCall) :
    ∀ c : channel, (runApp c calls).trace = c.trace ++ appEvents calls := by
  induction calls with
  | nil => intro c; simp [runApp, appEvents]
  | cons call calls ih =>
    intro c
    cases call with
    | send data writeResult => simp [runApp, appEvents, ih, Send_trace]
    | close => simp [runApp, appEvents, ih, Close_trace]

/-- Application calls contain no read, no callback call and no cancel. -/
theorem appEvents_counts (calls : List AppCall) :
    onMessagePayloads (appEvents calls) = [] ∧
    (appEvents calls).countP Event.isOnMessage = 0 ∧
    (appEvents calls).count Event.readMessage = 0 ∧
    (appEvents calls).count Event.onCloseByPeer = 0 ∧
    (appEvents calls).count Event.connectionCloser = 0 := by
  induction calls with
  | nil => simp [appEvents, onMessagePayloads]
  | cons call calls ih =>
    obtain ⟨h1, h2, h3, h4, h5⟩ := ih
    cases call <;>
      simp [appEvents, onMessagePayloads, Event.isOnMessage, h1, h2, h3, h4, h5]

theorem callOnCloseByPeer_trace (c : channel) (body : List AppCall) :
    (c.callOnCloseByPeer body).trace = c.trace ++ Event.onCloseByPeer :: appEvents body := by
  simp [channel.callOnCloseByPeer, runApp_trace, channel.emit]

theorem callOnMessage_trace (c : channel) (bytes : Bytes) (body : List AppCall) :
    (c.callOnMessage bytes body).trace = c.trace ++ Event.onMessage bytes :: appEvents body := by
  simp [channel.callOnMessage, runApp_trace, channel.emit]

/-- The guard `if c.connectionOpenned { c.connectionCloser() }` appends at most
the cancel to the log. -/
theorem guard_trace (c : channel) :
    (if c.connectionOpenned = true then c.callConnectionCloser else c).trace =
      c.trace ++ (if c.connectionOpenned = true then [Event.connectionCloser] else []) := by
  cases h : c.connectionOpenned <;> simp [channel.callConnectionCloser]

/-- One iteration whose read returns no error forwards the payload and loops. -/
theorem keepListenning_deliver_ok (c : channel) (r : ReadResult) (body : List AppCall)
    (env : List EnvEvent) (h : r.err = none) :
    keepListenning c (EnvEvent.deliver r body :: env) =
      keepListenning ((c.emit Event.readMessage).callOnMessage r.message body) env := by
  simp [keepListenning, h, asCloseError, isNetError]

/-- One iteration whose read returns a close error for which `onCloseByPeer` is
called: the guard that follows reads `connectionOpenned` as the callback left
it. -/
theorem keepListenning_deliver_closeError_callback (c : channel) (r : ReadResult)
    (body : List AppCall) (env : List EnvEvent) (code : Int) (text : String)
    (h : r.err = some (GoError.closeError code text))
    (hcb : code = CloseGoingAway ∨ code = CloseAbnormalClosure ∨
      (code = CloseNormalClosure ∧ c.connectionOpenned = true)) :
    keepListenning c (EnvEvent.deliver r body :: env) =
      { chan :=
          if ((c.emit Event.readMessage).callOnCloseByPeer body).connectionOpenned = true then
            ((c.emit Event.readMessage).callOnCloseByPeer body).callConnectionCloser
          else (c.emit Event.readMessage).callOnCloseByPeer body
        returned := true
        unread := env } := by
  by_cases h12 : code = CloseGoingAway ∨ code = CloseAbnormalClosure
  · simp [keepListenning, h, asCloseError, h12]
  · have h3 : code = CloseNormalClosure ∧ c.connectionOpenned = true := by
      rcases hcb with h1 | h2 | h3
      · exact absurd (Or.inl h1) h12
      · exact absurd (Or.inr h2) h12
      · exact h3
    simp [keepListenning, h, asCloseError, h12, h3, channel.emit]

/-- One iteration whose read returns a close error for which `onCloseByPeer` is
not called: the close is logged and the guard reads the unchanged flag. -/
theorem keepListenning_deliver_closeError_log (c : channel) (r : ReadResult)
    (body : List AppCall) (env : List EnvEvent) (code : Int) (text : String)
    (h : r.err = some (GoError.closeError code text))
    (hcb : ¬ (code = CloseGoingAway ∨ code = CloseAbnormalClosure ∨
      (code = CloseNormalClosure ∧ c.connectionOpenned = true))) :
    keepListenning c (EnvEvent.deliver r body :: env) =
      { chan :=
          { connectionOpenned := c.connectionOpenned
            connectionCtxDone := c.connectionCtxDone || c.connectionOpenned
            writingMitx := c.writingMitx
            trace := c.trace ++ Event.readMessage ::
              Event.logInfof "Connection closed by the player (%d): %s" ::
              (if c.connectionOpenned = true then [Event.connectionCloser] else []) }
        returned := true
        unread := env } := by
  have h12 : ¬ (code = CloseGoingAway ∨ code = CloseAbnormalClosure) := by
    rintro (h1 | h2)
    · exact hcb (Or.inl h1)
    · exact hcb (Or.inr (Or.inl h2))
  have h3 : ¬ (code = CloseNormalClosure ∧ c.connectionOpenned = true) :=
    fun h3 => hcb (Or.inr (Or.inr h3))
  cases hopen : c.connectionOpenned <;>
    simp_all [keepListenning, asCloseError, channel.emit, channel.callConnectionCloser,
      channel.logInfof]

/-- One iteration whose read returns an error that is not a close error. -/
theorem keepListenning_deliver_otherError (c : channel) (r : ReadResult) (body : List AppCall)
    (env : List EnvEvent) (e : GoError) (h : r.err = some e)
    (hc : asCloseError (some e) = none) :
    keepListenning c (EnvEvent.deliver r body :: env) =
      { chan :=
          { connectionOpenned := c.connectionOpenned
            connectionCtxDone := true
            writingMitx := c.writingMitx
            trace := c.trace ++ Event.readMessage :: Event.connectionCloser ::
              (if isNetError (some e) = true ∧ c.connectionOpenned = true
                then [Event.logInfof "unnexpected connection closed (%d): %s"] else []) }
        returned := true
        unread := env } := by
  cases hopen : c.connectionOpenned <;> cases e <;>
    simp_all [keepListenning, asCloseError, isNetError, channel.emit,
      channel.callConnectionCloser, channel.logInfof]

end Talk

/-! ## Close classification in `keepListenning` -/

namespace Talk

/-- Log of the iteration that calls `onCloseByPeer`: the read, the callback call,
whatever the callback does on the channel, then the cancel when the flag is
still set. -/
theorem keepListenning_closeError_callback_trace (c : channel) (r : ReadResult)
    (body : List AppCall) (env : List EnvEvent) (code : Int) (text : String)
    (h : r.err = some (GoError.closeError code text))
    (hcb : code = CloseGoingAway ∨ code = CloseAbnormalClosure ∨
      (code = CloseNormalClosure ∧ c.connectionOpenned = true)) :
    (keepListenning c (EnvEvent.deliver r body :: env)).chan.trace =
      c.trace ++ Event.readMessage :: Event.onCloseByPeer :: (appEvents body ++
        (if ((c.emit Event.readMessage).callOnCloseByPeer body).connectionOpenned = true
          then [Event.connectionCloser] else [])) := by
  rw [keepListenning_deliver_closeError_callback c r body env code text h hcb]
  simp only []
  rw [guard_trace, callOnCloseByPeer_trace]
  simp [channel.emit]

/-- C1 (code defect): on an open channel whose `onCloseByPeer` callback calls
`Close()`, a read returning a going-away (1001) close error calls the callback
once and then skips `connectionCloser`, because the guard reads
`connectionOpenned` after the callback has cleared it: the lifecycle context is
never cancelled.  With a callback that leaves the channel alone the same read
does cancel once. -/
theorem goingAway_callback_Close_skips_cancel :
    openChannel.connectionOpenned = true ∧
    emitted openChannel
        (keepListenning openChannel
          [EnvEvent.deliver ⟨0, [], some (GoError.closeError 1001 "going away")⟩
            [AppCall.close]]).chan =
      [Event.readMessage, Event.onCloseByPeer, Event.setConnectionOpenned false,
        Event.writeMessage 1000 [98, 121, 101], Event.wsClose] ∧
    (emitted openChannel
        (keepListenning openChannel
          [EnvEvent.deliver ⟨0, [], some (GoError.closeError 1001 "going away")⟩
            [AppCall.close]]).chan).count Event.connectionCloser = 0 ∧
    (keepListenning openChannel
      [EnvEvent.deliver ⟨0, [], some (GoError.closeError 1001 "going away")⟩
        [AppCall.close]]).chan.connectionCtxDone = false ∧
    (keepListenning openChannel
      [EnvEvent.deliver ⟨0, [], some (GoError.closeError 1001 "going away")⟩
        [AppCall.close]]).returned = true ∧
    emitted openChannel
        (keepListenning openChannel
          [EnvEvent.deliver ⟨0, [], some (GoError.closeError 1001 "going away")⟩ []]).chan =
      [Event.readMessage, Event.onCloseByPeer, Event.connectionCloser] := by
  decide

/-- C2 (code defect): on an open channel whose `onCloseByPeer` callback calls
`Close()`, a read returning a normal-closure (1000) close error finds
`connectionOpenned` true at the test before the callback and false at the guard
after it: the callback is called once and `connectionCloser` is not called.
With a callback that leaves the channel alone the same read does cancel once,
and on a channel whose flag is already false neither call is made. -/
theorem normalClosure_callback_Close_skips_cancel :
    openChannel.connectionOpenned = true ∧
    emitted openChannel
        (keepListenning openChannel
          [EnvEvent.deliver ⟨0, [], some (GoError.closeError 1000 "")⟩ [AppCall.close]]).chan =
      [Event.readMessage, Event.onCloseByPeer, Event.setConnectionOpenned false,
        Event.writeMessage 1000 [98, 121, 101], Event.wsClose] ∧
    (emitted openChannel
        (keepListenning openChannel
          [EnvEvent.deliver ⟨0, [], some (GoError.closeError 1000 "")⟩ [AppCall.close]]).chan).count
      Event.connectionCloser = 0 ∧
    (keepListenning openChannel
      [EnvEvent.deliver ⟨0, [], some (GoError.closeError 1000 "")⟩
        [AppCall.close]]).chan.connectionCtxDone = false ∧
    emitted openChannel
        (keepListenning openChannel
          [EnvEvent.deliver ⟨0, [], some (GoError.closeError 1000 "")⟩ []]).chan =
      [Event.readMessage, Event.onCloseByPeer, Event.connectionCloser] ∧
    emitted (Close openChannel)
        (keepListenning (Close openChannel)
          [EnvEvent.deliver ⟨0, [], some (GoError.closeError 1000 "")⟩ [AppCall.close]]).chan =
      [Event.readMessage, Event.logInfof "Connection closed by the player (%d): %s"] := by
  decide

/-- Counterexample to C4 as stated: on an open channel a read returning a close
error with code 1002 (none of 1000, 1001, 1006) does call `connectionCloser`,
once, and cancels the lifecycle context. -/
theorem other_close_code_cancels_open_channel :
    openChannel.connectionOpenned = true ∧
    (1002 : Int) ≠ CloseGoingAway ∧ (1002 : Int) ≠ CloseAbnormalClosure ∧
    (1002 : Int) ≠ CloseNormalClosure ∧
    ¬ ((emitted openChannel
        (keepListenning openChannel
          [EnvEvent.deliver ⟨0, [], some (GoError.closeError 1002 "protocol error")⟩ []]).chan).count
      Event.connectionCloser = 0) ∧
    emitted openChannel
        (keepListenning openChannel
          [EnvEvent.deliver ⟨0, [], some (GoError.closeError 1002 "protocol error")⟩ []]).chan =
      [Event.readMessage, Event.logInfof "Connection closed by the player (%d): %s",
        Event.connectionCloser] ∧
    (keepListenning openChannel
      [EnvEvent.deliver ⟨0, [], some (GoError.closeError 1002 "protocol error")⟩
        []]).chan.connectionCtxDone = true := by
  decide

/-- C4 (amended): when a read returns a close error whose code is none of
going-away (1001), abnormal-closure (1006) and normal-closure (1000), the loop
returns without calling `onCloseByPeer` or `onMessage`; `connectionCloser` is
called exactly once when `connectionOpenned` is true and not at all when it is
false. -/
theorem keepListenning_other_close_code (c : channel) (r : ReadResult) (body : List AppCall)
    (env : List EnvEvent) (code : Int) (text : String)
    (herr : r.err = some (GoError.closeError code text))
    (h1 : code ≠ CloseGoingAway) (h2 : code ≠ CloseAbnormalClosure)
    (h3 : code ≠ CloseNormalClosure) :
    (keepListenning c (EnvEvent.deliver r body :: env)).returned = true ∧
    (keepListenning c (EnvEvent.deliver r body :: env)).unread = env ∧
    (emitted c (keepListenning c (EnvEvent.deliver r body :: env)).chan).count
      Event.onCloseByPeer = 0 ∧
    (emitted c (keepListenning c (EnvEvent.deliver r body :: env)).chan).countP
      Event.isOnMessage = 0 ∧
    (emitted c (keepListenning c (EnvEvent.deliver r body :: env)).chan).count
      Event.connectionCloser = (if c.connectionOpenned = true then 1 else 0) ∧
    (keepListenning c (EnvEvent.deliver r body :: env)).chan.connectionCtxDone =
      (c.connectionCtxDone || c.connectionOpenned) := by
  have hif : ¬ (code = CloseGoingAway ∨ code = CloseAbnormalClosure ∨
      (code = CloseNormalClosure ∧ c.connectionOpenned = true)) := by
    rintro (h | h | ⟨h, _⟩)
    · exact h1 h
    · exact h2 h
    · exact h3 h
  rw [keepListenning_deliver_closeError_log c r body env code text herr hif]
  cases hopen : c.connectionOpenned <;>
    simp [emitted, Event.isOnMessage]

/-- Witness for C4 (amended): a channel closed locally reading close code 1002. -/
theorem keepListenning_other_close_code_witness :
    (emitted (Close openChannel)
        (keepListenning (Close openChannel)
          [EnvEvent.deliver ⟨0, [], some (GoError.closeError 1002 "")⟩ []]).chan).count
      Event.connectionCloser = 0 :=
  (keepListenning_other_close_code (Close openChannel)
    ⟨0, [], some (GoError.closeError 1002 "")⟩ [] [] 1002 "" rfl
    (by decide) (by decide) (by decide)).2.2.2.2.1

/-- C5: when a read returns a non-nil error that is not a websocket close error
(a `net.Error` or any other error, whatever `connectionOpenned` is),
`connectionCloser` is called exactly once, `onCloseByPeer` and `onMessage` are
not called, the lifecycle context is cancelled and the loop returns. -/
theorem keepListenning_non_close_error (c : channel) (r : ReadResult) (body : List AppCall)
    (env : List EnvEvent) (e : GoError)
    (herr : r.err = some e) (hnc : asCloseError (some e) = none) :
    (keepListenning c (EnvEvent.deliver r body :: env)).returned = true ∧
    (keepListenning c (EnvEvent.deliver r body :: env)).unread = env ∧
    (emitted c (keepListenning c (EnvEvent.deliver r body :: env)).chan).count
      Event.connectionCloser = 1 ∧
    (emitted c (keepListenning c (EnvEvent.deliver r body :: env)).chan).count
      Event.onCloseByPeer = 0 ∧
    (emitted c (keepListenning c (EnvEvent.deliver r body :: env)).chan).countP
      Event.isOnMessage = 0 ∧
    (keepListenning c (EnvEvent.deliver r body :: env)).chan.connectionCtxDone = true := by
  rw [keepListenning_deliver_otherError c r body env e herr hnc]
  by_cases hif : isNetError (some e) = true ∧ c.connectionOpenned = true <;>
    simp [emitted, hif, Event.isOnMessage]

/-- Witness for C5: a `net.Error` read on a channel that was closed locally. -/
theorem keepListenning_non_close_error_witness :
    (emitted (Close openChannel)
        (keepListenning (Close openChannel)
          [EnvEvent.deliver ⟨0, [], some (GoError.netError "use of closed connection")⟩
            []]).chan).count
      Event.connectionCloser = 1 :=
  (keepListenning_non_close_error (Close openChannel)
    ⟨0, [], some (GoError.netError "use of closed connection")⟩ [] [] _ rfl rfl).2.2.1

end Talk

/-! ## `Send` and `Close` -/

namespace Talk

/-- C9: `Send` performs exactly one transport write, a text frame carrying the
payload unchanged, between acquiring and releasing `writingMitx`; it returns
the result of that write as it is (nil or the same error); the mutex is free
afterwards on both paths; `connectionOpenned` and the lifecycle context are
left unchanged. -/
theorem Send_single_text_write (c : channel) (data : Bytes) (writeResult : Option GoError) :
    (Send c data writeResult).2 = writeResult ∧
    emitted c (Send c data writeResult).1 =
      [Event.lock, Event.writeMessage TextMessage data, Event.unlock] ∧
    (emitted c (Send c data writeResult).1).countP Event.isWrite = 1 ∧
    (Send c data writeResult).1.writingMitx = false ∧
    (Send c data writeResult).1.connectionOpenned = c.connectionOpenned ∧
    (Send c data writeResult).1.connectionCtxDone = c.connectionCtxDone ∧
    (emitted c (Send c data writeResult).1).count Event.connectionCloser = 0 := by
  simp [Send, emitted, channel.mitxLock, channel.mitxUnlock, channel.wsWriteMessage,
    channel.emit, Event.isWrite]

/-- C8 (code defect): the single write `Close` issues passes the close status
code `CloseNormalClosure` (1000) as the frame type and the three bytes of
"bye" as the payload; the frame type is not `CloseMessage` (8).  The
transport is closed after the write and `connectionCloser` is not called. -/
theorem Close_writes_status_code_as_frame_type (c : channel) :
    emitted c (Close c) =
      [Event.setConnectionOpenned false, Event.writeMessage 1000 [98, 121, 101], Event.wsClose] ∧
    Event.writeMessage CloseMessage [98, 121, 101] ∉ emitted c (Close c) ∧
    (1000 : Int) ≠ CloseMessage ∧
    (emitted c (Close c)).count Event.connectionCloser = 0 ∧
    (Close c).connectionCtxDone = c.connectionCtxDone := by
  rw [emitted_of_trace_eq (Close_trace c), Close_connectionCtxDone]
  simp [CloseNormalClosure, CloseMessage, bye]

/-- C10 (code defect): the transport write of `Close` happens while `writingMitx`
is not held by it: the calls of `Close` contain one write and neither a lock nor
an unlock, whereas the write of `Send` lies between its lock and its unlock. -/
theorem Close_write_not_guarded (c : channel) (data : Bytes) (writeResult : Option GoError) :
    writesGuarded false (emitted c (Close c)) = false ∧
    (emitted c (Close c)).countP Event.isWrite = 1 ∧
    (emitted c (Close c)).count Event.lock = 0 ∧
    (emitted c (Close c)).count Event.unlock = 0 ∧
    writesGuarded false (emitted openChannel (Close openChannel)) = false ∧
    writesGuarded false (emitted c (Send c data writeResult).1) = true := by
  rw [emitted_of_trace_eq (Close_trace c), emitted_of_trace_eq (Close_trace openChannel)]
  simp [writesGuarded, Event.isWrite, Send, emitted, channel.mitxLock, channel.mitxUnlock,
    channel.wsWriteMessage, channel.emit]

/-- C3: on an open channel, when `Close()` is called and the next read the loop
observes is a close error with code normal-closure (1000), then over `Close` and
the loop together `onCloseByPeer` is not called, `connectionCloser` is called at
most once (in fact not at all), and the loop returns.  `Close` assigns
`connectionOpenned = false` before its write; without that assignment the same
read does call `onCloseByPeer`. -/
theorem Close_then_normalClosure_echo (c : channel) (r : ReadResult) (body : List AppCall)
    (rest : List EnvEvent) (text : String) (hopen : c.connectionOpenned = true)
    (herr : r.err = some (GoError.closeError CloseNormalClosure text)) :
    (keepListenning c (EnvEvent.app AppCall.close :: EnvEvent.deliver r body :: rest)).returned
      = true ∧
    (keepListenning c (EnvEvent.app AppCall.close :: EnvEvent.deliver r body :: rest)).unread
      = rest ∧
    (emitted c
      (keepListenning c (EnvEvent.app AppCall.close :: EnvEvent.deliver r body :: rest)).chan).count
      Event.onCloseByPeer = 0 ∧
    (emitted c
      (keepListenning c (EnvEvent.app AppCall.close :: EnvEvent.deliver r body :: rest)).chan).count
      Event.connectionCloser ≤ 1 ∧
    emitted c
      (keepListenning c (EnvEvent.app AppCall.close :: EnvEvent.deliver r body :: rest)).chan =
      [Event.setConnectionOpenned false, Event.writeMessage CloseNormalClosure bye, Event.wsClose,
        Event.readMessage, Event.logInfof "Connection closed by the player (%d): %s"] ∧
    (emitted c (keepListenning c (EnvEvent.deliver r body :: rest)).chan).count
      Event.onCloseByPeer = 1 := by
  have hstep : keepListenning c (EnvEvent.app AppCall.close :: EnvEvent.deliver r body :: rest) =
      keepListenning (Close c) (EnvEvent.deliver r body :: rest) := by
    simp [keepListenning, runApp]
  have hlog : ¬ (CloseNormalClosure = CloseGoingAway ∨ CloseNormalClosure = CloseAbnormalClosure ∨
      (CloseNormalClosure = CloseNormalClosure ∧ (Close c).connectionOpenned = true)) := by
    simp [Close_connectionOpenned, (by decide : ¬ CloseNormalClosure = CloseGoingAway),
      (by decide : ¬ CloseNormalClosure = CloseAbnormalClosure)]
  have hcb : CloseNormalClosure = CloseGoingAway ∨ CloseNormalClosure = CloseAbnormalClosure ∨
      (CloseNormalClosure = CloseNormalClosure ∧ c.connectionOpenned = true) :=
    Or.inr (Or.inr ⟨rfl, hopen⟩)
  obtain ⟨_, _, _, a4, a5⟩ := appEvents_counts body
  rw [hstep, keepListenning_deliver_closeError_log (Close c) r body rest CloseNormalClosure text
      herr hlog,
    emitted_of_trace_eq
      (keepListenning_closeError_callback_trace c r body rest CloseNormalClosure text herr hcb)]
  refine ⟨rfl, rfl, ?_, ?_, ?_, ?_⟩
  · simp [emitted, Close_trace, Close_connectionOpenned]
  · simp [emitted, Close_trace, Close_connectionOpenned]
  · simp [emitted, Close_trace, Close_connectionOpenned]
  · rw [List.count_cons, List.count_cons, List.count_append, a4]
    split <;> simp

/-- Witness for C3: a channel opened by `Connect`, closed locally, then reading
the normal-closure echo. -/
theorem Close_then_normalClosure_echo_witness :
    (emitted openChannel
        (keepListenning openChannel
          [EnvEvent.app AppCall.close,
            EnvEvent.deliver ⟨0, [], some (GoError.closeError CloseNormalClosure "bye")⟩
              []]).chan).count
      Event.onCloseByPeer = 0 :=
  (Close_then_normalClosure_echo openChannel
    ⟨0, [], some (GoError.closeError CloseNormalClosure "bye")⟩ [] [] "bye" rfl rfl).2.2.1

end Talk

/-! ## Whole runs of the inbound loop -/

namespace Talk

theorem onMessagePayloads_append (xs ys : List Event) :
    onMessagePayloads (xs ++ ys) = onMessagePayloads xs ++ onMessagePayloads ys := by
  induction xs with
  | nil => simp [onMessagePayloads]
  | cons x xs ih => cases x <;> simp [onMessagePayloads, ih]

theorem onMessagePayloads_forwarded (msgs : List (ReadResult × List AppCall)) :
    onMessagePayloads (forwarded msgs) = msgs.map (fun m => m.1.message) := by
  induction msgs with
  | nil => simp [forwarded, onMessagePayloads]
  | cons m ms ih =>
    simp [forwarded, onMessagePayloads, onMessagePayloads_append, ih,
      (appEvents_counts m.2).1]

theorem forwarded_counts (msgs : List (ReadResult × List AppCall)) :
    (forwarded msgs).count Event.readMessage = msgs.length ∧
    (forwarded msgs).countP Event.isOnMessage = msgs.length ∧
    (forwarded msgs).count Event.onCloseByPeer = 0 ∧
    (forwarded msgs).count Event.connectionCloser = 0 := by
  induction msgs with
  | nil => simp [forwarded]
  | cons m ms ih =>
    obtain ⟨h1, h2, h3, h4⟩ := ih
    obtain ⟨_, a2, a3, a4, a5⟩ := appEvents_counts m.2
    simp [forwarded, Event.isOnMessage, List.count_cons, List.count_append, List.countP_cons,
      List.countP_append, h1, h2, h3, h4, a2, a3, a4, a5]

/-- The iteration that reads a non-nil error ends the loop; after the read it
calls neither `onMessage` nor `ReadMessage` again, and each of `onCloseByPeer`
and `connectionCloser` at most once, whatever the callback does on the
channel. -/
theorem keepListenning_deliver_error (c : channel) (r : ReadResult) (body : List AppCall)
    (env : List EnvEvent) (h : r.err ≠ none) :
    ∃ tail : List Event,
      (keepListenning c (EnvEvent.deliver r body :: env)).chan.trace =
        c.trace ++ Event.readMessage :: tail ∧
      (keepListenning c (EnvEvent.deliver r body :: env)).returned = true ∧
      (keepListenning c (EnvEvent.deliver r body :: env)).unread = env ∧
      onMessagePayloads tail = [] ∧
      tail.countP Event.isOnMessage = 0 ∧
      tail.count Event.readMessage = 0 ∧
      tail.count Event.onCloseByPeer ≤ 1 ∧
      tail.count Event.connectionCloser ≤ 1 := by
  cases herr : r.err with
  | none => exact absurd herr h
  | some e =>
    cases hc : asCloseError (some e) with
    | none =>
      rw [keepListenning_deliver_otherError c r body env e herr hc]
      refine ⟨_, rfl, rfl, rfl, ?_⟩
      by_cases hif : isNetError (some e) = true ∧ c.connectionOpenned = true <;>
        simp [hif, onMessagePayloads, Event.isOnMessage]
    | some code =>
      cases e with
      | closeError code' text =>
        by_cases hif : (code' = CloseGoingAway ∨ code' = CloseAbnormalClosure ∨
            (code' = CloseNormalClosure ∧ c.connectionOpenned = true))
        · obtain ⟨a1, a2, a3, a4, a5⟩ := appEvents_counts body
          refine ⟨_, keepListenning_closeError_callback_trace c r body env code' text herr hif,
            ?_, ?_, ?_⟩
          · rw [keepListenning_deliver_closeError_callback c r body env code' text herr hif]
          · rw [keepListenning_deliver_closeError_callback c r body env code' text herr hif]
          · split <;>
              simp [onMessagePayloads, onMessagePayloads_append, Event.isOnMessage,
                List.count_cons, List.count_append, List.countP_cons, List.countP_append,
                a1, a2, a3, a4, a5]
        · rw [keepListenning_deliver_closeError_log c r body env code' text herr hif]
          refine ⟨_, rfl, rfl, rfl, ?_⟩
          cases hopen : c.connectionOpenned <;> simp [onMessagePayloads, Event.isOnMessage]
      | netError msg => simp [asCloseError] at hc
      | other msg => simp [asCloseError] at hc

/-- Shape of the log of a run that reads `msgs` successfully and then an error. -/
theorem keepListenning_forwarded_trace (msgs : List (ReadResult × List AppCall)) :
    ∀ (c : channel) (bad : ReadResult) (body : List AppCall) (rest : List EnvEvent),
      (∀ m ∈ msgs, m.1.err = none) → bad.err ≠ none →
      ∃ tail : List Event,
        (keepListenning c
          (msgs.map (fun m => EnvEvent.deliver m.1 m.2) ++
            EnvEvent.deliver bad body :: rest)).chan.trace =
          c.trace ++ (forwarded msgs ++ Event.readMessage :: tail) ∧
        (keepListenning c
          (msgs.map (fun m => EnvEvent.deliver m.1 m.2) ++
            EnvEvent.deliver bad body :: rest)).returned = true ∧
        (keepListenning c
          (msgs.map (fun m => EnvEvent.deliver m.1 m.2) ++
            EnvEvent.deliver bad body :: rest)).unread = rest ∧
        onMessagePayloads tail = [] ∧
        tail.countP Event.isOnMessage = 0 ∧
        tail.count Event.readMessage = 0 := by
  induction msgs with
  | nil =>
    intro c bad body rest _ hbad
    obtain ⟨tail, h1, h2, h3, h4, h5, h6, _, _⟩ :=
      keepListenning_deliver_error c bad body rest hbad
    exact ⟨tail, by simpa [forwarded] using h1, by simpa using h2, by simpa using h3, h4, h5, h6⟩
  | cons m ms ih =>
    intro c bad body rest hok hbad
    have hm : m.1.err = none := hok m (List.mem_cons_self _ _)
    have hms : ∀ x ∈ ms, x.1.err = none := fun x hx => hok x (List.mem_cons_of_mem _ hx)
    obtain ⟨tail, h1, h2, h3, h4, h5, h6⟩ :=
      ih ((c.emit Event.readMessage).callOnMessage m.1.message m.2) bad body rest hms hbad
    refine ⟨tail, ?_, ?_, ?_, h4, h5, h6⟩
    · simp only [List.map_cons, List.cons_append]
      rw [keepListenning_deliver_ok c m.1 m.2 _ hm, h1, callOnMessage_trace]
      simp [forwarded, channel.emit]
    · simp only [List.map_cons, List.cons_append]
      rw [keepListenning_deliver_ok c m.1 m.2 _ hm, h2]
    · simp only [List.map_cons, List.cons_append]
      rw [keepListenning_deliver_ok c m.1 m.2 _ hm, h3]

/-- C6: when the transport answers with `n` successful reads carrying payloads
`p1..pn` (of any frame type) and then a first non-nil error, whatever
`connectionOpenned` is and whatever the callbacks do on the channel,
`keepListenning` calls `onMessage` exactly `n` times with `p1..pn` in that
order, each right after its read and all before the read of the error, after
which no `onMessage` follows; it reads exactly `n + 1` times, leaves the rest
of the input unread, and returns. -/
theorem keepListenning_forwards_then_stops (c : channel)
    (msgs : List (ReadResult × List AppCall)) (bad : ReadResult) (body : List AppCall)
    (rest : List EnvEvent)
    (hok : ∀ m ∈ msgs, m.1.err = none) (hbad : bad.err ≠ none) :
    (keepListenning c
      (msgs.map (fun m => EnvEvent.deliver m.1 m.2) ++
        EnvEvent.deliver bad body :: rest)).returned = true ∧
    (keepListenning c
      (msgs.map (fun m => EnvEvent.deliver m.1 m.2) ++
        EnvEvent.deliver bad body :: rest)).unread = rest ∧
    onMessagePayloads
        (emitted c (keepListenning c
          (msgs.map (fun m => EnvEvent.deliver m.1 m.2) ++
            EnvEvent.deliver bad body :: rest)).chan)
      = msgs.map (fun m => m.1.message) ∧
    (emitted c (keepListenning c
      (msgs.map (fun m => EnvEvent.deliver m.1 m.2) ++
        EnvEvent.deliver bad body :: rest)).chan).countP Event.isOnMessage = msgs.length ∧
    (emitted c (keepListenning c
      (msgs.map (fun m => EnvEvent.deliver m.1 m.2) ++
        EnvEvent.deliver bad body :: rest)).chan).count Event.readMessage = msgs.length + 1 ∧
    ∃ tail : List Event,
      emitted c (keepListenning c
        (msgs.map (fun m => EnvEvent.deliver m.1 m.2) ++
          EnvEvent.deliver bad body :: rest)).chan =
        forwarded msgs ++ Event.readMessage :: tail ∧
      tail.countP Event.isOnMessage = 0 ∧
      tail.count Event.readMessage = 0 ∧
      (forwarded msgs).count Event.onCloseByPeer = 0 ∧
      (forwarded msgs).count Event.connectionCloser = 0 := by
  obtain ⟨tail, h1, h2, h3, h4, h5, h6⟩ :=
    keepListenning_forwarded_trace msgs c bad body rest hok hbad
  obtain ⟨f1, f2, f3, f4⟩ := forwarded_counts msgs
  have hem := emitted_of_trace_eq h1
  refine ⟨h2, h3, ?_, ?_, ?_, tail, hem, h5, h6, f3, f4⟩
  · rw [hem, onMessagePayloads_append, onMessagePayloads_forwarded]
    simp [onMessagePayloads, h4]
  · rw [hem]
    simp [List.countP_append, List.countP_cons, f2, h5, Event.isOnMessage]
  · rw [hem]
    simp [List.count_append, List.count_cons, f1, h6]

/-- Witness for C6: two data frames (a text one whose callback answers with a
`Send`, and a binary one) and then a going-away close on an open channel. -/
theorem keepListenning_forwards_then_stops_witness :
    onMessagePayloads
        (emitted openChannel (keepListenning openChannel
          ([((⟨1, [112, 105], none⟩ : ReadResult), [AppCall.send [111, 107] none]),
              (⟨2, [0, 255], none⟩, [])].map (fun m => EnvEvent.deliver m.1 m.2) ++
            EnvEvent.deliver ⟨0, [], some (GoError.closeError 1001 "")⟩ [] ::
              [EnvEvent.deliver ⟨1, [7], none⟩ []])).chan)
      = [[112, 105], [0, 255]] :=
  (keepListenning_forwards_then_stops openChannel
    [(⟨1, [112, 105], none⟩, [AppCall.send [111, 107] none]), (⟨2, [0, 255], none⟩, [])]
    ⟨0, [], some (GoError.closeError 1001 "")⟩ []
    [EnvEvent.deliver ⟨1, [7], none⟩ []] (by decide) (by decide)).2.2.1

/-- Invariant of the log of any run of the inbound loop, whatever the transport
answers, whatever the callbacks do on the channel and wherever `Send` and
`Close()` calls of other goroutines fall between the reads. -/
theorem keepListenning_trace_invariant (env : List EnvEvent) :
    ∀ c : channel, ∃ evs : List Event,
      (keepListenning c env).chan.trace = c.trace ++ evs ∧
      evs.count Event.onCloseByPeer ≤ 1 ∧
      evs.count Event.connectionCloser ≤ 1 ∧
      ((keepListenning c env).returned = false →
        evs.count Event.onCloseByPeer = 0 ∧ evs.count Event.connectionCloser = 0) := by
  induction env with
  | nil =>
    intro c
    exact ⟨[], by simp [keepListenning], by simp, by simp, by simp⟩
  | cons ev env ih =>
    intro c
    cases ev with
    | app call =>
      obtain ⟨evs, h1, h2, h3, h4⟩ := ih (runApp c [call])
      obtain ⟨_, _, _, a4, a5⟩ := appEvents_counts [call]
      refine ⟨appEvents [call] ++ evs, ?_, ?_, ?_, ?_⟩
      · simp only [keepListenning]
        rw [h1, runApp_trace, List.append_assoc]
      · rw [List.count_append, a4]; simpa using h2
      · rw [List.count_append, a5]; simpa using h3
      · intro hr
        simp only [keepListenning] at hr
        rw [List.count_append, List.count_append, a4, a5]
        simpa using h4 hr
    | deliver r body =>
      by_cases herr : r.err = none
      · obtain ⟨evs, h1, h2, h3, h4⟩ :=
          ih ((c.emit Event.readMessage).callOnMessage r.message body)
        obtain ⟨_, _, _, a4, a5⟩ := appEvents_counts body
        refine ⟨Event.readMessage :: Event.onMessage r.message :: (appEvents body ++ evs),
          ?_, ?_, ?_, ?_⟩
        · rw [keepListenning_deliver_ok c r body env herr, h1, callOnMessage_trace]
          simp [channel.emit]
        · simpa [List.count_cons, List.count_append, a4] using h2
        · simpa [List.count_cons, List.count_append, a5] using h3
        · intro hr
          rw [keepListenning_deliver_ok c r body env herr] at hr
          simpa [List.count_cons, List.count_append, a4, a5] using h4 hr
      · obtain ⟨tail, h1, h2, _, _, _, _, h7, h8⟩ :=
          keepListenning_deliver_error c r body env herr
        refine ⟨Event.readMessage :: tail, h1, ?_, ?_, ?_⟩
        · simpa [List.count_cons] using h7
        · simpa [List.count_cons] using h8
        · intro hr
          rw [h2] at hr
          exact absurd hr (by decide)

/-- C7: for every sequence of transport answers, every initial value of
`connectionOpenned`, every placement of `Close()` (and `Send`) calls between
the reads and inside the callbacks, one run of `keepListenning` calls
`onCloseByPeer` at most once and `connectionCloser` at most once; a run that
has called either of them has returned from the loop. -/
theorem keepListenning_terminal_signals_at_most_once (c : channel) (env : List EnvEvent) :
    (emitted c (keepListenning c env).chan).count Event.onCloseByPeer ≤ 1 ∧
    (emitted c (keepListenning c env).chan).count Event.connectionCloser ≤ 1 ∧
    ((keepListenning c env).returned = false →
      (emitted c (keepListenning c env).chan).count Event.onCloseByPeer = 0 ∧
      (emitted c (keepListenning c env).chan).count Event.connectionCloser = 0) := by
  obtain ⟨evs, h1, h2, h3, h4⟩ := keepListenning_trace_invariant env c
  rw [emitted_of_trace_eq h1]
  exact ⟨h2, h3, h4⟩

end Talk
